import Mathlib

/-!
# Verification of the bitrot Discogs enrichment subsystem

Shallow embedding of `backend/src/services/discogsMatcher.js` (final,
column-based version), `backend/src/services/discogsClient.js`,
`backend/src/services/discogsQueue.js` and the `POST /discogs/match/:releaseId`
route, together with theorems settling the frozen claims about them.

JS strings are modelled as `List Char`; JS `null`/`undefined` as `Option`;
machine numbers as `Nat`/`Int` (no overflow is relevant: scores are small and
ids/timestamps are used only for comparison); fallible calls as `Except`.
External I/O (the Discogs HTTP API) is modelled as an explicit environment,
and database writes as an explicit effect trace.
-/

namespace Bitrot

/-- JS strings, modelled as lists of characters. -/
abbrev Str := List Char

/-- Characters matched by the JS regex class `\s` (ASCII part; the inputs at
stake contain no Unicode whitespace). -/
def jsWhitespace (c : Char) : Bool :=
  c = ' ' || c = '\t' || c = '\n' || c = '\r' || c = '\x0b' || c = '\x0c'

/-- Characters matched by the JS regex class `\w`, i.e. `[A-Za-z0-9_]`. -/
def isJsWordChar (c : Char) : Bool :=
  c.isAlpha || c.isDigit || c = '_'

/-- `String.prototype.trim` (ASCII whitespace). -/
def trimStr (s : Str) : Str :=
  ((s.dropWhile jsWhitespace).reverse.dropWhile jsWhitespace).reverse

/-- Helper for the regex `\(\d+\)`: after at least one digit has been read,
consume further digits and the closing parenthesis. -/
def digitsThenCloseAux : Str → Option Str
  | [] => none
  | c :: rest =>
    if c.isDigit then digitsThenCloseAux rest
    else if c = ')' then some rest
    else none

/-- Helper for the regex `\(\d+\)`: consume one or more digits followed by
`)` and return the remainder, or `none` if the pattern does not match here. -/
def digitsThenClose : Str → Option Str
  | [] => none
  | c :: rest => if c.isDigit then digitsThenCloseAux rest else none

/-- `str.replace(/\(\d+\)/g, "")`: remove every `(digits)` group (leftmost,
non-overlapping, like a global regex replace).  Fuel-driven recursion; every
step consumes at least one character, so `s.length` fuel is always enough. -/
def stripParenDigitsFuel : Nat → Str → Str
  | 0, s => s
  | _ + 1, [] => []
  | fuel + 1, c :: rest =>
    if c = '(' then
      match digitsThenClose rest with
      | some rest2 => stripParenDigitsFuel fuel rest2
      | none => c :: stripParenDigitsFuel fuel rest
    else c :: stripParenDigitsFuel fuel rest

/-- `str.replace(/\(\d+\)/g, "")`. -/
def stripParenDigits (s : Str) : Str := stripParenDigitsFuel s.length s

/-- `str.replace(/[^\w\s]/g, " ")` (from the final `normalize`). -/
def punctToSpace (s : Str) : Str :=
  s.map fun c => if isJsWordChar c || jsWhitespace c then c else ' '

/-- `str.replace(/\s{2,}/g, " ")`: every maximal run of two or more
whitespace characters becomes a single space; a lone whitespace character is
left untouched.  Fuel-driven like `stripParenDigitsFuel`. -/
def collapseWsFuel : Nat → Str → Str
  | 0, s => s
  | _ + 1, [] => []
  | fuel + 1, c :: rest =>
    if jsWhitespace c then
      match rest with
      | c2 :: _ =>
        if jsWhitespace c2 then ' ' :: collapseWsFuel fuel (rest.dropWhile jsWhitespace)
        else c :: collapseWsFuel fuel rest
      | [] => [c]
    else c :: collapseWsFuel fuel rest

/-- `str.replace(/\s{2,}/g, " ")`. -/
def collapseWs (s : Str) : Str := collapseWsFuel s.length s

/-- JS falsiness of a (possibly null) string value: `null`, `undefined` and
`""` are falsy. -/
def jsFalsyStr : Option Str → Bool
  | none => true
  | some s => s.isEmpty

/-- `normalize` from the final `discogsMatcher.js`:
`if (!str) return ""` then lowercase, strip `(digits)` disambiguators, map
`[^\w\s]` to spaces, collapse whitespace runs, trim. -/
def normalize (s : Option Str) : Str :=
  if jsFalsyStr s then []
  else trimStr (collapseWs (punctToSpace (stripParenDigits ((s.getD []).map Char.toLower))))

/-- `hay.includes(needle)` — substring containment. -/
def strIncludes (needle : Str) : Str → Bool
  | [] => needle.isEmpty
  | c :: t => needle.isPrefixOf (c :: t) || strIncludes needle t

/-- Split a string at the first occurrence of `sep` (nonempty), returning the
parts before and after; `none` when `sep` does not occur.  This is exactly
what `raw.split(sep)` followed by `parts[0]` / `parts.slice(1).join(sep)`
computes when `parts.length >= 2`. -/
def splitAtSub (sep : Str) : Str → Option (Str × Str)
  | [] => none
  | c :: rest =>
    if sep.isPrefixOf (c :: rest) then some ([], (c :: rest).drop sep.length)
    else
      match splitAtSub sep rest with
      | some (pre, post) => some (c :: pre, post)
      | none => none

/-- A Discogs search hit as consumed by the matcher (`id`, `master_id`,
combined `title`, optional `artist`, `year`). -/
structure SearchHit where
  id : Option Int := none
  master_id : Option Int := none
  title : Option Str := none
  artist : Option Str := none
  year : Option Int := none
deriving Repr, DecidableEq

/-- The release row handed to the matcher.  `release_date_year` models
`new Date(releaseRow.release_date).getFullYear()` for a truthy date string,
`none` a null/empty `release_date`. -/
structure ReleaseRow where
  id : Nat
  title : Option Str := none
  artist_name : Option Str := none
  release_date_year : Option Int := none
  discogs_release_id : Option Int := none
  discogs_master_id : Option Int := none
  discogs_confidence : Option Int := none
deriving Repr, DecidableEq

/-- `parseDiscogsSearchHit`: split the combined `"Artist - Title"` display
string at the first `" - "`; if absent, the whole string is the title and the
artist comes from the own `artist` field of the hit. -/
def parseDiscogsSearchHit (hit : SearchHit) : Str × Str :=
  let raw := hit.title.getD []
  match splitAtSub " - ".toList raw with
  | some (a, t) => (trimStr a, trimStr t)
  | none => (trimStr (hit.artist.getD []), trimStr raw)

/-- Title component of `scoreResult`: +40 exact, +25 substring either way. -/
def titlePoints (relTitle hitTitle : Str) : Nat :=
  if relTitle ≠ [] ∧ hitTitle ≠ [] ∧ relTitle = hitTitle then 40
  else if relTitle ≠ [] ∧ hitTitle ≠ [] ∧
      (strIncludes relTitle hitTitle || strIncludes hitTitle relTitle) then 25
  else 0

/-- Artist component of `scoreResult`: +30 exact, +15 substring either way. -/
def artistPoints (relArtist hitArtist : Str) : Nat :=
  if relArtist ≠ [] ∧ hitArtist ≠ [] ∧ relArtist = hitArtist then 30
  else if relArtist ≠ [] ∧ hitArtist ≠ [] ∧
      (strIncludes relArtist hitArtist || strIncludes hitArtist relArtist) then 15
  else 0

/-- `const hitYear = hit?.year ? Number(hit.year) : null` (0 is falsy). -/
def jsHitYear (hit : SearchHit) : Option Int :=
  match hit.year with
  | none => none
  | some y => if y = 0 then none else some y

/-- The year condition of `scoreResult`:
`hitYear && relYear && hitYear === relYear`. -/
def yearMatchB (row : ReleaseRow) (hit : SearchHit) : Bool :=
  match jsHitYear hit, row.release_date_year with
  | some hy, some ry => if hy ≠ 0 ∧ ry ≠ 0 ∧ hy = ry then true else false
  | _, _ => false

/-- Year component of `scoreResult`: +10 on a year match. -/
def yearPoints (row : ReleaseRow) (hit : SearchHit) : Nat :=
  if yearMatchB row hit then 10 else 0

/-- `scoreResult` from the final `discogsMatcher.js`. -/
def scoreResult (row : ReleaseRow) (hit : SearchHit) : Nat :=
  let relTitle := normalize row.title
  let relArtist := normalize row.artist_name
  let parsed := parseDiscogsSearchHit hit
  let hitTitle := normalize (some parsed.2)
  let hitArtist := normalize (some parsed.1)
  Nat.min (titlePoints relTitle hitTitle + artistPoints relArtist hitArtist
    + yearPoints row hit) 100

/-- The decision thresholds applied to the best score
(`bestScore >= 75` matched, `>= 50` suggested, else rejected). -/
def decideStatus (score : Nat) : Str :=
  if score ≥ 75 then "matched".toList
  else if score ≥ 50 then "suggested".toList
  else "rejected".toList

section ScoreBounds

theorem titlePoints_le (a b : Str) : titlePoints a b ≤ 40 := by
  unfold titlePoints; split_ifs <;> omega

theorem artistPoints_le (a b : Str) : artistPoints a b ≤ 30 := by
  unfold artistPoints; split_ifs <;> omega

theorem yearPoints_le (row : ReleaseRow) (hit : SearchHit) : yearPoints row hit ≤ 10 := by
  unfold yearPoints; split_ifs <;> omega

theorem yearPoints_eq_zero (row : ReleaseRow) (hit : SearchHit)
    (h : yearMatchB row hit = false) : yearPoints row hit = 0 := by
  unfold yearPoints; simp [h]

theorem scoreResult_le_80 (row : ReleaseRow) (hit : SearchHit) :
    scoreResult row hit ≤ 80 := by
  simp only [scoreResult]
  have h1 := titlePoints_le (normalize row.title)
    (normalize (some (parseDiscogsSearchHit hit).2))
  have h2 := artistPoints_le (normalize row.artist_name)
    (normalize (some (parseDiscogsSearchHit hit).1))
  have h3 := yearPoints_le row hit
  refine le_trans (Nat.min_le_left _ _) ?_
  omega

theorem scoreResult_le_70_of_no_year (row : ReleaseRow) (hit : SearchHit)
    (h : yearMatchB row hit = false) : scoreResult row hit ≤ 70 := by
  simp only [scoreResult]
  have h1 := titlePoints_le (normalize row.title)
    (normalize (some (parseDiscogsSearchHit hit).2))
  have h2 := artistPoints_le (normalize row.artist_name)
    (normalize (some (parseDiscogsSearchHit hit).1))
  have h3 := yearPoints_eq_zero row hit h
  refine le_trans (Nat.min_le_left _ _) ?_
  omega

end ScoreBounds

/-- The release of the scoring-determinism example. -/
def bocRow : ReleaseRow :=
  { id := 1, title := some "Geogaddi".toList,
    artist_name := some "Boards of Canada".toList,
    release_date_year := some 2002 }

/-- The hit of the scoring-determinism example. -/
def bocHit : SearchHit :=
  { id := some 12345, master_id := some 678,
    title := some "Boards Of Canada - Geogaddi".toList, year := some 2002 }

/-- The same hit without a year (used for the no-year maximum). -/
def bocHitNoYear : SearchHit :=
  { id := some 12345, master_id := some 678,
    title := some "Boards Of Canada - Geogaddi".toList, year := none }

/-- C3: for the release {artist: "Boards of Canada", title: "Geogaddi"} with
release year 2002 scored against the hit
{title: "Boards Of Canada - Geogaddi", year: 2002}, `scoreResult` returns
40 + 30 + 10 = 80 and the threshold rule assigns status "matched". -/
theorem scoreResult_boards_of_canada_matched :
    scoreResult bocRow bocHit = 80 ∧
    decideStatus (scoreResult bocRow bocHit) = "matched".toList := by
  constructor <;> decide

/-- C4 counterexample: the claimed maxima (80 without a year match, 90
overall) are not attained; in fact every score is at most 80, so no input
scores 90, refuting the claim as stated. -/
theorem scoreResult_max_bounds_claim_false :
    ¬ ((∀ row hit, yearMatchB row hit = false → scoreResult row hit ≤ 80) ∧
       (∀ row hit, scoreResult row hit ≤ 90) ∧
       (∃ row hit, yearMatchB row hit = false ∧ scoreResult row hit = 80) ∧
       (∃ row hit, scoreResult row hit = 90)) := by
  rintro ⟨-, -, -, ⟨row, hit, h90⟩⟩
  have h := scoreResult_le_80 row hit
  omega

/-- C4 amended: the score computed by `scoreResult` is at most 70 when the
hit year does not match the release year, and at most 80 in all cases;
both maxima are attained for some inputs. -/
theorem scoreResult_bounds_amended :
    (∀ row hit, yearMatchB row hit = false → scoreResult row hit ≤ 70) ∧
    (∀ row hit, scoreResult row hit ≤ 80) ∧
    (∃ row hit, yearMatchB row hit = false ∧ scoreResult row hit = 70) ∧
    (∃ row hit, scoreResult row hit = 80) := by
  refine ⟨fun row hit h => scoreResult_le_70_of_no_year row hit h,
    fun row hit => scoreResult_le_80 row hit,
    ⟨bocRow, bocHitNoYear, by decide, by decide⟩,
    ⟨bocRow, bocHit, by decide⟩⟩

/-- C4 amended witness: the no-year bound applied at a concrete input. -/
theorem scoreResult_bounds_amended_witness :
    yearMatchB bocRow bocHitNoYear = false ∧ scoreResult bocRow bocHitNoYear ≤ 70 :=
  ⟨by decide, scoreResult_bounds_amended.1 bocRow bocHitNoYear (by decide)⟩

/-! ## The rate-limited API client (`discogsClient.js`) -/

/-- An HTTP response as observed by `discogsRequest`: status code and body
text. -/
structure HttpResp where
  status : Nat
  body : Str
deriving Repr, DecidableEq

/-- `res.ok` — status in the range 200 to 299. -/
def statusOk (s : Nat) : Bool := decide (200 ≤ s) && decide (s ≤ 299)

/-- `isLikelyHtml` from `discogsClient.js`: empty text is not HTML; otherwise
trim, lowercase, and look for a doctype, `<html` prefix or `<head`. -/
def isLikelyHtml (text : Str) : Bool :=
  if text.isEmpty then false
  else
    let t := (trimStr text).map Char.toLower
    "<!doctype".toList.isPrefixOf t || "<html".toList.isPrefixOf t ||
      strIncludes "<head".toList t

/-- The classified outcome of one `discogsRequest` call.  `configError`
models a thrown `DiscogsConfigError`, `temporaryError` a thrown
`DiscogsTemporaryError` (with its `status` field), `fatalError` the plain
`Error` thrown for any other non-2xx status. -/
inductive ReqOutcome (J : Type) where
  | configError
  | temporaryError (status : Nat)
  | fatalError (status : Nat)
  | ok (val : J)
deriving Repr, DecidableEq

/-- The classification applied to the response that survives the 429 block:
502/503/504 are temporary; any other non-2xx is temporary when the body is
HTML and fatal otherwise; a 2xx HTML body is temporary (status 502), and a
2xx body that `JSON.parse` rejects is temporary (status 502). -/
def classifyDiscogsResponse (parseJson : Str → Option J) (res : HttpResp) : ReqOutcome J :=
  if res.status = 502 ∨ res.status = 503 ∨ res.status = 504 then
    .temporaryError res.status
  else if statusOk res.status = false then
    if isLikelyHtml res.body then .temporaryError res.status
    else .fatalError res.status
  else if isLikelyHtml res.body then .temporaryError 502
  else
    match parseJson res.body with
    | some j => .ok j
    | none => .temporaryError 502

/-- `discogsRequest`.  `token` is `process.env.DISCOGS_TOKEN` (absent or
empty is falsy), `responses n` the response the network returns to the
(n+1)-th outbound fetch of this call, `parseJson` a model of `JSON.parse`
(`none` = parse throws).  Returns the outcome and the number of outbound
fetches performed.  The throttle gate and the retry sleeps only spend time
and are not modelled. -/
def discogsRequest (parseJson : Str → Option J) (token : Option Str)
    (responses : Nat → HttpResp) : ReqOutcome J × Nat :=
  if jsFalsyStr token then (.configError, 0)
  else
    let res0 := responses 0
    if res0.status = 429 then
      let res1 := responses 1
      if res1.status = 429 then (.temporaryError 429, 2)
      else (classifyDiscogsResponse parseJson res1, 2)
    else (classifyDiscogsResponse parseJson res0, 1)

/-- C7: `discogsRequest` classifies every outcome as the claim states: a
missing token is a config error raised before any outbound call; a 429
is retried exactly once and a second 429 is a temporary error; 502/503/504
are temporary errors after a single fetch; a 2xx body that is HTML or not
parseable as JSON is a temporary error; any other non-2xx with a non-HTML
body is a fatal error that is not retried. -/
theorem discogsRequest_classification :
    (∀ (J : Type) (parse : Str → Option J) responses,
      discogsRequest parse none responses = (.configError, 0)) ∧
    (∀ (J : Type) (parse : Str → Option J) tok responses,
      jsFalsyStr tok = false →
      (responses 0).status = 429 → (responses 1).status = 429 →
      discogsRequest parse tok responses = (.temporaryError 429, 2)) ∧
    (∀ (J : Type) (parse : Str → Option J) tok responses,
      jsFalsyStr tok = false →
      ((responses 0).status = 502 ∨ (responses 0).status = 503 ∨ (responses 0).status = 504) →
      discogsRequest parse tok responses = (.temporaryError (responses 0).status, 1)) ∧
    (∀ (J : Type) (parse : Str → Option J) tok responses,
      jsFalsyStr tok = false →
      statusOk (responses 0).status = true → isLikelyHtml (responses 0).body = true →
      discogsRequest parse tok responses = (.temporaryError 502, 1)) ∧
    (∀ (J : Type) (parse : Str → Option J) tok responses,
      jsFalsyStr tok = false →
      statusOk (responses 0).status = true → isLikelyHtml (responses 0).body = false →
      parse (responses 0).body = none →
      discogsRequest parse tok responses = (.temporaryError 502, 1)) ∧
    (∀ (J : Type) (parse : Str → Option J) tok responses,
      jsFalsyStr tok = false →
      statusOk (responses 0).status = false → (responses 0).status ≠ 429 →
      (responses 0).status ≠ 502 → (responses 0).status ≠ 503 → (responses 0).status ≠ 504 →
      isLikelyHtml (responses 0).body = true →
      discogsRequest parse tok responses = (.temporaryError (responses 0).status, 1)) ∧
    (∀ (J : Type) (parse : Str → Option J) tok responses,
      jsFalsyStr tok = false →
      statusOk (responses 0).status = false → (responses 0).status ≠ 429 →
      (responses 0).status ≠ 502 → (responses 0).status ≠ 503 → (responses 0).status ≠ 504 →
      isLikelyHtml (responses 0).body = false →
      discogsRequest parse tok responses = (.fatalError (responses 0).status, 1)) := by
  refine ⟨?_, ?_, ?_, ?_, ?_, ?_, ?_⟩
  · intro J parse responses
    simp [discogsRequest, jsFalsyStr]
  · intro J parse tok responses htok h0 h1
    simp [discogsRequest, htok, h0, h1]
  · intro J parse tok responses htok h50x
    have h429 : (responses 0).status ≠ 429 := by rcases h50x with h | h | h <;> omega
    simp only [discogsRequest, htok, Bool.false_eq_true, if_false, if_neg h429]
    simp [classifyDiscogsResponse, h50x]
  · intro J parse tok responses htok hok hhtml
    have h429 : (responses 0).status ≠ 429 := by
      intro h; rw [h] at hok; simp [statusOk] at hok
    have h50x : ¬ ((responses 0).status = 502 ∨ (responses 0).status = 503 ∨
        (responses 0).status = 504) := by
      rintro (h | h | h) <;> rw [h] at hok <;> simp [statusOk] at hok
    simp only [discogsRequest, htok, Bool.false_eq_true, if_false, if_neg h429]
    simp [classifyDiscogsResponse, h50x, hok, hhtml]
  · intro J parse tok responses htok hok hhtml hparse
    have h429 : (responses 0).status ≠ 429 := by
      intro h; rw [h] at hok; simp [statusOk] at hok
    have h50x : ¬ ((responses 0).status = 502 ∨ (responses 0).status = 503 ∨
        (responses 0).status = 504) := by
      rintro (h | h | h) <;> rw [h] at hok <;> simp [statusOk] at hok
    simp only [discogsRequest, htok, Bool.false_eq_true, if_false, if_neg h429]
    simp [classifyDiscogsResponse, h50x, hok, hhtml, hparse]
  · intro J parse tok responses htok hnok h429 h502 h503 h504 hhtml
    have h50x : ¬ ((responses 0).status = 502 ∨ (responses 0).status = 503 ∨
        (responses 0).status = 504) := by tauto
    simp only [discogsRequest, htok, Bool.false_eq_true, if_false, if_neg h429]
    simp [classifyDiscogsResponse, h50x, hnok, hhtml]
  · intro J parse tok responses htok hnok h429 h502 h503 h504 hhtml
    have h50x : ¬ ((responses 0).status = 502 ∨ (responses 0).status = 503 ∨
        (responses 0).status = 504) := by tauto
    simp only [discogsRequest, htok, Bool.false_eq_true, if_false, if_neg h429]
    simp [classifyDiscogsResponse, h50x, hnok, hhtml]

/-- C7 witness: a concrete call that is rate limited twice. -/
theorem discogsRequest_classification_witness :
    discogsRequest (fun _ => some ()) (some "t".toList) (fun _ => ⟨429, []⟩) =
      (.temporaryError 429, 2) :=
  discogsRequest_classification.2.1 Unit (fun _ => some ()) (some "t".toList)
    (fun _ => ⟨429, []⟩) (by decide) rfl rfl

/-! ## The job queue (`discogsQueue.js`) -/

/-- `MAX_CONCURRENCY` from `discogsQueue.js`. -/
def MAX_CONCURRENCY : Nat := 2

/-- The mutable module state of the queue: the `active` counter and the
pending FIFO, jobs represented by identifiers. -/
structure QState where
  active : Nat
  queue : List Nat
deriving Repr, DecidableEq

/-- The `drain()` loop: while `active < MAX_CONCURRENCY` and the queue is
nonempty, shift the head, increment `active` and start that job.  Returns
the new state and the jobs admitted (started), in order. -/
def drainGo : Nat → List Nat → QState × List Nat
  | active, [] => (⟨active, []⟩, [])
  | active, j :: q =>
    if active < MAX_CONCURRENCY then
      let r := drainGo (active + 1) q
      (r.1, j :: r.2)
    else (⟨active, j :: q⟩, [])

/-- `drain()` applied to a queue state. -/
def drain (s : QState) : QState × List Nat := drainGo s.active s.queue

/-- `enqueueDiscogsJob`: push the job, then `drain()`. -/
def enqueueStep (s : QState) (j : Nat) : QState × List Nat :=
  drain ⟨s.active, s.queue ++ [j]⟩

/-- The `.finally` handler of a settled job: `active--` then `drain()`.  The
decrement saturates at 0, which is unreachable while a job is running. -/
def finishStep (s : QState) : QState × List Nat :=
  drain ⟨s.active - 1, s.queue⟩

/-- An external event against the queue module: an `enqueueDiscogsJob` call,
or the settlement of one running job. -/
inductive QEvent where
  | enq (j : Nat)
  | fin
deriving Repr, DecidableEq

/-- One event step. -/
def qstep (s : QState) : QEvent → QState × List Nat
  | .enq j => enqueueStep s j
  | .fin => finishStep s

/-- Run a sequence of interleaved enqueue/settlement events, collecting every
admitted job in order. -/
def qrun (s : QState) : List QEvent → QState × List Nat
  | [] => (s, [])
  | e :: es =>
    let r1 := qstep s e
    let r2 := qrun r1.1 es
    (r2.1, r1.2 ++ r2.2)

/-- The jobs enqueued by a sequence of events, in order. -/
def enqLog (events : List QEvent) : List Nat :=
  events.filterMap fun e => match e with | .enq j => some j | .fin => none

/-- The initial module state. -/
def qinit : QState := ⟨0, []⟩

theorem drainGo_spec (q : List Nat) : ∀ active, active ≤ 2 →
    (drainGo active q).1.active ≤ 2 ∧
    ((drainGo active q).1.queue ≠ [] → (drainGo active q).1.active = 2) ∧
    (drainGo active q).2 ++ (drainGo active q).1.queue = q := by
  induction q with
  | nil => intro active h; simp [drainGo, h]
  | cons j rest ih =>
    intro active h
    by_cases hlt : active < MAX_CONCURRENCY
    · have h1 : active + 1 ≤ 2 := by
        simp [MAX_CONCURRENCY] at hlt; omega
      have := ih (active + 1) h1
      simp only [drainGo, if_pos hlt]
      exact ⟨this.1, this.2.1, by simp [this.2.2]⟩
    · have h2 : active = 2 := by simp [MAX_CONCURRENCY] at hlt; omega
      subst h2
      simp [drainGo, MAX_CONCURRENCY]

theorem qstep_spec (s : QState) (e : QEvent) (h : s.active ≤ 2) :
    (qstep s e).1.active ≤ 2 ∧
    ((qstep s e).1.queue ≠ [] → (qstep s e).1.active = 2) ∧
    (qstep s e).2 ++ (qstep s e).1.queue = s.queue ++ enqLog [e] := by
  cases e with
  | enq j =>
    have := drainGo_spec (s.queue ++ [j]) s.active h
    simpa [qstep, enqueueStep, drain, enqLog] using this
  | fin =>
    have h1 : s.active - 1 ≤ 2 := by omega
    have := drainGo_spec s.queue (s.active - 1) h1
    simpa [qstep, finishStep, drain, enqLog] using this

theorem qrun_spec (events : List QEvent) : ∀ s : QState, s.active ≤ 2 →
    (s.queue ≠ [] → s.active = 2) →
    (qrun s events).1.active ≤ 2 ∧
    ((qrun s events).1.queue ≠ [] → (qrun s events).1.active = 2) ∧
    (qrun s events).2 ++ (qrun s events).1.queue = s.queue ++ enqLog events := by
  induction events with
  | nil => intro s h hq; simpa [qrun, enqLog, h] using hq
  | cons e es ih =>
    intro s h hq
    have hstep := qstep_spec s e h
    have hrest := ih (qstep s e).1 hstep.1 hstep.2.1
    refine ⟨?_, ?_, ?_⟩
    · simpa [qrun] using hrest.1
    · simpa [qrun] using hrest.2.1
    · simp only [qrun]
      calc ((qstep s e).2 ++ (qrun (qstep s e).1 es).2) ++ (qrun (qstep s e).1 es).1.queue
          = (qstep s e).2 ++ ((qrun (qstep s e).1 es).2 ++ (qrun (qstep s e).1 es).1.queue) := by
            rw [List.append_assoc]
        _ = (qstep s e).2 ++ ((qstep s e).1.queue ++ enqLog es) := by rw [hrest.2.2]
        _ = ((qstep s e).2 ++ (qstep s e).1.queue) ++ enqLog es := by rw [List.append_assoc]
        _ = (s.queue ++ enqLog [e]) ++ enqLog es := by rw [hstep.2.2]
        _ = s.queue ++ enqLog (e :: es) := by
            cases e <;> simp [enqLog]

theorem drainGo_saturated (q : List Nat) : drainGo 2 q = (⟨2, q⟩, []) := by
  cases q <;> simp [drainGo, MAX_CONCURRENCY]

/-- C9: starting from the initial state, after any sequence of enqueue and
job-settlement events the number of running jobs is at most 2; the admitted
jobs followed by the still-pending queue are exactly the enqueued jobs in
FIFO order; and whenever the queue is nonempty, the settlement of a running
job immediately admits exactly the queue head. -/
theorem queue_fifo_and_bound (events : List QEvent) :
    (qrun qinit events).1.active ≤ 2 ∧
    (qrun qinit events).2 ++ (qrun qinit events).1.queue = enqLog events ∧
    (∀ j q, (qrun qinit events).1.queue = j :: q →
      (qstep (qrun qinit events).1 .fin).2 = [j]) := by
  have h := qrun_spec events qinit (by simp [qinit]) (by simp [qinit])
  refine ⟨h.1, ?_, ?_⟩
  · simpa [qinit] using h.2.2
  · intro j q hq
    have hact : (qrun qinit events).1.active = 2 := h.2.1 (by simp [hq])
    simp [qstep, finishStep, drain, hact, hq, drainGo, MAX_CONCURRENCY,
      drainGo_saturated]

/-- C9 witness: three enqueues admit two jobs, leave one pending, and a
settlement admits the pending one. -/
theorem queue_fifo_and_bound_witness :
    (qrun qinit [.enq 10, .enq 20, .enq 30]).1.active ≤ 2 ∧
    (qstep (qrun qinit [.enq 10, .enq 20, .enq 30]).1 .fin).2 = [30] := by
  have h := queue_fifo_and_bound [.enq 10, .enq 20, .enq 30]
  exact ⟨h.1, h.2.2 30 [] (by decide)⟩

/-- The promise pipeline around one job:
`Promise.resolve().then(() => job.fn())` then `.then(job.resolve)` /
`.catch(job.reject)`.  A job function is represented by the outcome of its
invocation (`.error` covering a synchronous throw as well as a rejected
returned promise); the chain settles with exactly that outcome. -/
def settleJob (fnResult : Except E V) : Except E V :=
  (Except.ok ()).bind fun _ => fnResult

/-- Running one admitted job to settlement: the settlement delivered to the
promise returned by `enqueueDiscogsJob`, and the `.finally` effects
(`active--; drain()`), which run for fulfilled and rejected jobs alike. -/
def runAdmittedJob (fnResult : Except E V) (s : QState) :
    Except E V × (QState × List Nat) :=
  (settleJob fnResult, finishStep s)

/-- C10: for every job outcome — including a synchronous throw — the promise
returned by `enqueueDiscogsJob` settles with exactly that outcome; the
`.finally` handler then decrements the active counter and drains, in the
failure case exactly as in the success case; and when the queue is saturated
with a pending head, settlement of a failing job still admits the next
queued job. -/
theorem enqueued_job_settles_and_frees_slot (E V : Type) :
    (∀ (r : Except E V) s, (runAdmittedJob r s).1 = r) ∧
    (∀ (r : Except E V) s, (runAdmittedJob r s).2 = drain ⟨s.active - 1, s.queue⟩) ∧
    (∀ (r : Except E V) s j q, s.active = 2 → s.queue = j :: q →
      (runAdmittedJob r s).2.2 = [j] ∧ (runAdmittedJob r s).2.1 = ⟨2, q⟩) := by
  refine ⟨fun r s => rfl, fun r s => rfl, ?_⟩
  intro r s j q hact hq
  constructor <;>
    simp [runAdmittedJob, finishStep, drain, hact, hq, drainGo, MAX_CONCURRENCY,
      drainGo_saturated]

/-- C10 witness: a synchronously-failing job settles with its error and its
settlement admits the pending job. -/
theorem enqueued_job_settles_and_frees_slot_witness :
    (runAdmittedJob (Except.error () : Except Unit Unit) ⟨2, [5]⟩).1 = Except.error () ∧
    (runAdmittedJob (Except.error () : Except Unit Unit) ⟨2, [5]⟩).2.2 = [5] :=
  ⟨(enqueued_job_settles_and_frees_slot Unit Unit).1 (Except.error ()) ⟨2, [5]⟩,
    ((enqueued_job_settles_and_frees_slot Unit Unit).2.2 (Except.error ()) ⟨2, [5]⟩
      5 [] rfl rfl).1⟩

/-! ## The matcher and enrichment persister (final `discogsMatcher.js`) -/

/-- A client-call failure as classified by `isDiscogsConfigError` /
`isDiscogsTemporaryError`; `fatal` is any other thrown error. -/
inductive DErr where
  | config
  | temporary (status : Nat)
  | fatal
deriving Repr, DecidableEq

/-- The argument object of one `discogsSearchRelease` call; the `year` field
is absent (`none`) when the year was falsy. -/
structure SearchAttempt where
  artist : Str
  title : Str
  year : Option Int := none
deriving Repr, DecidableEq

/-- A search response (`results` list). -/
structure SearchResp where
  results : List SearchHit
deriving Repr, DecidableEq

/-- A JS number: a finite value or `NaN` (so that `Number.isFinite` is
meaningful). -/
inductive JsNum where
  | num (q : ℚ)
  | nan
deriving Repr, DecidableEq

/-- One entry of `releaseJson.images`. -/
structure ImageJson where
  type : Option Str := none
  uri : Option Str := none
  uri150 : Option Str := none
  resource_url : Option Str := none
deriving Repr, DecidableEq

/-- One entry of `releaseJson.labels`. -/
structure LabelJson where
  name : Option Str := none
deriving Repr, DecidableEq

/-- `releaseJson.community.rating`. -/
structure RatingJson where
  average : Option JsNum := none
  count : Option JsNum := none
deriving Repr, DecidableEq

/-- The full release document returned by `discogsGetRelease`, restricted to
the fields the matcher reads.  Array elements that can be `null` are
`Option`-typed. -/
structure DiscogsReleaseJson where
  genres : Option (List (Option Str)) := none
  styles : Option (List (Option Str)) := none
  country : Option Str := none
  labels : Option (List LabelJson) := none
  images : Option (List ImageJson) := none
  rating : Option RatingJson := none
  master_id : Option Int := none
deriving Repr, DecidableEq

/-- Truthiness of an optional string value (null and empty are falsy). -/
def optStrTruthy : Option Str → Bool
  | none => false
  | some s => !s.isEmpty

/-- Truthiness of an optional integer value (null and 0 are falsy). -/
def optIntTruthy : Option Int → Bool
  | none => false
  | some v => decide (v ≠ 0)

/-- `value || null` on an optional integer (0 collapses to null). -/
def jsOrNullInt : Option Int → Option Int
  | none => none
  | some v => if v = 0 then none else some v

/-- `safeStringArray`: a non-array is `null`; otherwise trim each element
(`null` elements become empty), drop empties, and return `null` when nothing
remains. -/
def safeStringArray (arr : Option (List (Option Str))) : Option (List Str) :=
  match arr with
  | none => none
  | some l =>
    let out := (l.map fun x => trimStr (x.getD [])).filter fun s => !s.isEmpty
    if out.isEmpty then none else some out

/-- `pickImages`: prefer the image whose `type` lowercases to `"primary"`,
else the first; cover from `uri` else `resource_url`, thumb from `uri150`
else `uri`. -/
def pickImages (json : DiscogsReleaseJson) : Option Str × Option Str :=
  match json.images.getD [] with
  | [] => (none, none)
  | img0 :: rest =>
    let primary := ((img0 :: rest).find? fun img =>
      ((img.type.getD []).map Char.toLower) = "primary".toList).getD img0
    let coverUrl := if optStrTruthy primary.uri then primary.uri
      else if optStrTruthy primary.resource_url then primary.resource_url
      else none
    let thumbUrl := if optStrTruthy primary.uri150 then primary.uri150
      else if optStrTruthy primary.uri then primary.uri
      else none
    (coverUrl, thumbUrl)

/-- `extractLabels`: trimmed nonempty label names, `null` when none. -/
def extractLabels (json : DiscogsReleaseJson) : Option (List Str) :=
  let names := ((json.labels.getD []).map fun l => trimStr (l.name.getD [])).filter
    fun s => !s.isEmpty
  if names.isEmpty then none else some names

/-- `extractRating`: `community.rating.average` / `.count`, `null` when
absent or not finite. -/
def extractRating (json : DiscogsReleaseJson) : Option ℚ × Option ℚ :=
  let avg := match json.rating.bind (fun r => r.average) with
    | some (.num q) => some q
    | _ => none
  let count := match json.rating.bind (fun r => r.count) with
    | some (.num q) => some q
    | _ => none
  (avg, count)

/-- `releaseJson?.country ? String(releaseJson.country).trim() : null`. -/
def extractCountry (json : DiscogsReleaseJson) : Option Str :=
  if optStrTruthy json.country then some (trimStr (json.country.getD [])) else none

/-- The Discogs enrichment columns of one `releases` row. -/
structure ReleaseCols where
  discogs_release_id : Option Int := none
  discogs_master_id : Option Int := none
  discogs_confidence : Option Int := none
  discogs_matched_at : Option Int := none
  discogs_genres : Option (List Str) := none
  discogs_styles : Option (List Str) := none
  discogs_country : Option Str := none
  discogs_labels : Option (List Str) := none
  discogs_cover_image_url : Option Str := none
  discogs_thumb_url : Option Str := none
  discogs_rating_average : Option ℚ := none
  discogs_rating_count : Option ℚ := none
  discogs_last_refreshed_at : Option Int := none
  discogs_refreshed_at : Option Int := none
deriving Repr, DecidableEq

/-- SQL `COALESCE` of a bind parameter and an existing column value. -/
def coalesce (a b : Option α) : Option α :=
  match a with
  | some x => some x
  | none => b

/-- The argument object of `persistReleaseEnrichment`. -/
structure EnrichArgs where
  releaseId : Nat
  discogsReleaseId : Option Int
  discogsMasterId : Option Int
  confidenceScore : Option Int
  releaseJson : DiscogsReleaseJson
deriving Repr, DecidableEq

/-- `persistReleaseEnrichment`: the `UPDATE releases SET ...` statement as a
function of the existing column values (`now()` passed in), together with
the `(tag name, source)` pairs that `syncDiscogsTagsToReleaseTags`
subsequently upserts and attaches (it never deletes anything).  The pointer
columns and `discogs_matched_at` go through `COALESCE`; the enrichment
payload columns are assigned the freshly extracted bind values directly. -/
def persistReleaseEnrichment (args : EnrichArgs) (old : ReleaseCols) (now : Int) :
    ReleaseCols × List (Str × Str) :=
  let genres := safeStringArray args.releaseJson.genres
  let styles := safeStringArray args.releaseJson.styles
  let cols : ReleaseCols :=
    { discogs_release_id := coalesce args.discogsReleaseId old.discogs_release_id
      discogs_master_id := coalesce args.discogsMasterId old.discogs_master_id
      discogs_confidence := coalesce args.confidenceScore old.discogs_confidence
      discogs_matched_at := coalesce old.discogs_matched_at (some now)
      discogs_genres := genres
      discogs_styles := styles
      discogs_country := extractCountry args.releaseJson
      discogs_labels := extractLabels args.releaseJson
      discogs_cover_image_url := (pickImages args.releaseJson).1
      discogs_thumb_url := (pickImages args.releaseJson).2
      discogs_rating_average := (extractRating args.releaseJson).1
      discogs_rating_count := (extractRating args.releaseJson).2
      discogs_last_refreshed_at := some now
      discogs_refreshed_at := some now }
  let tags :=
    ((genres.getD []).filterMap fun g =>
      if (trimStr g).isEmpty then none else some (trimStr g, "discogs_genre".toList)) ++
    ((styles.getD []).filterMap fun s =>
      if (trimStr s).isEmpty then none else some (trimStr s, "discogs_style".toList))
  (cols, tags)

/-- A row inserted into `release_discogs_matches` by `insertMatchRow`. -/
structure MatchRowIns where
  release_id : Nat
  discogs_release_id : Option Int
  discogs_master_id : Option Int
  confidence_score : Int
  match_method : Str
  status : Str
deriving Repr, DecidableEq

/-- The fallback `UPDATE releases SET` pointer write used when hydration
fails after a match. -/
structure PointerUpdate where
  release_id : Nat
  discogs_release_id : Option Int
  discogs_master_id : Option Int
  discogs_confidence : Int
deriving Repr, DecidableEq

/-- Every externally observable effect of one matcher invocation: the search
calls issued (in order), the `getRelease` calls, the Match Attempt rows
inserted, the `discogs_entities` cache upserts, the
`persistReleaseEnrichment` invocations and the fallback pointer updates. -/
structure Trace where
  searches : List SearchAttempt := []
  getReleases : List Int := []
  matchRows : List MatchRowIns := []
  entityUpserts : List (Int × Str) := []
  enrichPersists : List EnrichArgs := []
  pointerFallbacks : List PointerUpdate := []
deriving Repr, DecidableEq

/-- The external world as seen by the matcher: the classified outcome of
each client call (the retries inside `discogsClient.js` already folded in). -/
structure DiscogsEnv where
  search : SearchAttempt → Except DErr SearchResp
  getRelease : Int → Except DErr DiscogsReleaseJson

/-- The result object `matchDiscogsForRelease` returns to its caller. -/
structure MatchResult where
  release_id : Nat
  status : Str
  confidence_score : Int
  discogs_release_id : Option Int := none
  discogs_master_id : Option Int := none
  refreshed : Bool := false
  debugReason : Option Str := none
deriving Repr, DecidableEq

/-- A matcher invocation either throws (missing release id, or indexing an
empty scored list) or returns a result. -/
inductive MatchOutcome where
  | thrown
  | result (r : MatchResult)
deriving Repr, DecidableEq

/-- `refreshExistingDiscogsMatch`: one `getRelease` call; on success, cache
the document, insert a `refresh_existing`/`matched` attempt row reusing the
stored confidence (100 when none), and persist enrichment.  Errors from the
client propagate to the caller. -/
def refreshExistingDiscogsMatch (env : DiscogsEnv) (row : ReleaseRow) (ptr : Int) :
    Except DErr MatchResult × Trace :=
  match env.getRelease ptr with
  | .error e => (.error e, { getReleases := [ptr] })
  | .ok json =>
    let conf : Int := row.discogs_confidence.getD 100
    (.ok { release_id := row.id, status := "matched".toList, confidence_score := conf,
           discogs_release_id := some ptr, discogs_master_id := json.master_id,
           refreshed := true },
     { getReleases := [ptr],
       entityUpserts := if ptr ≠ 0 then [(ptr, "release".toList)] else [],
       matchRows := [⟨row.id, some ptr, json.master_id, conf,
         "refresh_existing".toList, "matched".toList⟩],
       enrichPersists := [⟨row.id, some ptr, json.master_id, some conf, json⟩] })

/-- `rawArtist.split(c)[0]`. -/
def takeUntilChar (sep : Char) (s : Str) : Str := s.takeWhile fun c => c ≠ sep

/-- The artist candidate list of the final search path: the raw artist, then
the trimmed part before the first `/` and the trimmed part before the first
`,`, each added only when truthy and different from the raw artist. -/
def artistCandidates (rawArtist : Str) : List Str :=
  let splitSlash := trimStr (takeUntilChar '/' rawArtist)
  let splitComma := trimStr (takeUntilChar ',' rawArtist)
  [rawArtist]
    ++ (if !splitSlash.isEmpty && splitSlash ≠ rawArtist then [splitSlash] else [])
    ++ (if !splitComma.isEmpty && splitComma ≠ rawArtist then [splitComma] else [])

/-- `year ? { artist, title, year } : { artist, title }` — the year field is
present only when the year value is truthy. -/
def attemptYear : Option Int → Option Int
  | none => none
  | some y => if y = 0 then none else some y

/-- How the candidate loop ended: normally (exhausted or broke on results),
or aborted by a config/fatal error returned from inside the `catch`. -/
inductive LoopExit where
  | normal
  | configErr
  | fatalErr
deriving Repr, DecidableEq

/-- The candidate loop of the final search path: one search per artist
candidate; the running `bestSearch` is replaced by every successful
response; the loop breaks on the first nonempty result list, `continue`s on
a temporary error, and aborts on config or fatal errors.  Returns the
attempt log, the final `bestSearch` and the exit kind. -/
def searchLoop (env : DiscogsEnv) (rawTitle : Str) (year : Option Int) :
    List Str → Option SearchResp → List SearchAttempt × Option SearchResp × LoopExit
  | [], best => ([], best, .normal)
  | a :: rest, best =>
    let attempt : SearchAttempt := ⟨a, rawTitle, attemptYear year⟩
    match env.search attempt with
    | .ok resp =>
      if resp.results.isEmpty then
        let r := searchLoop env rawTitle year rest (some resp)
        (attempt :: r.1, r.2)
      else ([attempt], some resp, .normal)
    | .error .config => ([attempt], best, .configErr)
    | .error (.temporary _) =>
      let r := searchLoop env rawTitle year rest best
      (attempt :: r.1, r.2)
    | .error .fatal => ([attempt], best, .fatalErr)

/-- Stable insertion for `scored.sort((a, b) => b.score - a.score)`: an
element goes after every earlier element with a greater-or-equal score. -/
def insertByScoreDesc (x : SearchHit × Nat) :
    List (SearchHit × Nat) → List (SearchHit × Nat)
  | [] => [x]
  | y :: ys => if y.2 ≤ x.2 then x :: y :: ys else y :: insertByScoreDesc x ys

/-- The stable descending sort by score. -/
def sortByScoreDesc : List (SearchHit × Nat) → List (SearchHit × Nat)
  | [] => []
  | x :: xs => insertByScoreDesc x (sortByScoreDesc xs)

/-- The search path after the candidate loop: classify the loop exit, handle
the zero-results insert, score the first 10 results, insert the attempt row
and hydrate on `matched`.  The attempt log itself is attached by
`searchPath`. -/
def searchPostLoop (env : DiscogsEnv) (row : ReleaseRow)
    (bestSearch : Option SearchResp) (exitKind : LoopExit) : MatchOutcome × Trace :=
  match exitKind with
  | .configErr =>
    (.result { release_id := row.id, status := "rejected".toList, confidence_score := 0,
               debugReason := some "discogs_config_error".toList }, {})
  | .fatalErr =>
    (.result { release_id := row.id, status := "rejected".toList, confidence_score := 0,
               debugReason := some "discogs_search_error".toList }, {})
  | .normal =>
    let results := match bestSearch with
      | some resp => resp.results
      | none => []
    if results.isEmpty then
      (.result { release_id := row.id, status := "rejected".toList, confidence_score := 0,
                 debugReason := some "no_discogs_results".toList },
       { matchRows := [⟨row.id, none, none, 0, "search_title_artist".toList,
           "rejected".toList⟩] })
    else
      let scored := (results.take 10).map fun r => (r, scoreResult row r)
      match sortByScoreDesc scored with
      | [] => (.thrown, {})
      | best :: _ =>
        let bestScore := best.2
        let status := decideStatus bestScore
        let dri := best.1.id
        let dmi := best.1.master_id
        let hydrate : Trace :=
          if status = "matched".toList ∧ optIntTruthy dri = true then
            match dri with
            | some rid =>
              match env.getRelease rid with
              | .ok json =>
                { getReleases := [rid],
                  entityUpserts := if rid ≠ 0 then [(rid, "release".toList)] else [],
                  enrichPersists := [⟨row.id, some rid,
                    (match json.master_id with | some m => some m | none => dmi),
                    some (bestScore : Int), json⟩] }
              | .error _ =>
                { getReleases := [rid],
                  pointerFallbacks := [⟨row.id, dri, dmi, (bestScore : Int)⟩] }
            | none => {}
          else {}
        (.result { release_id := row.id, status := status,
                   confidence_score := (bestScore : Int),
                   discogs_release_id := dri, discogs_master_id := dmi },
         { matchRows := [⟨row.id, dri, dmi, (bestScore : Int),
             "search_title_artist".toList, status⟩],
           getReleases := hydrate.getReleases,
           entityUpserts := hydrate.entityUpserts,
           enrichPersists := hydrate.enrichPersists,
           pointerFallbacks := hydrate.pointerFallbacks })

/-- The search path of the final `matchDiscogsForRelease`: trim the key
fields, reject without any persisted attempt when one is missing, then run
the candidate loop (at most the first 3 candidates) and the post-loop
processing. -/
def searchPath (env : DiscogsEnv) (row : ReleaseRow) : MatchOutcome × Trace :=
  let rawArtist := trimStr (row.artist_name.getD [])
  let rawTitle := trimStr (row.title.getD [])
  if rawArtist.isEmpty || rawTitle.isEmpty then
    (.result { release_id := row.id, status := "rejected".toList, confidence_score := 0,
               debugReason := some "missing_artist_or_title".toList }, {})
  else
    let loop := searchLoop env rawTitle row.release_date_year
      ((artistCandidates rawArtist).take 3) none
    let post := searchPostLoop env row loop.2.1 loop.2.2
    (post.1, { post.2 with searches := loop.1 })

/-- `matchDiscogsForRelease` (final version): throw on a missing release id;
fast-path refresh when `releases.discogs_release_id` is an integer, mapping
client errors to non-persisted rejections; otherwise the search path. -/
def matchDiscogsForRelease (env : DiscogsEnv) (row : ReleaseRow) :
    MatchOutcome × Trace :=
  if row.id = 0 then (.thrown, {})
  else
    match row.discogs_release_id with
    | some ptr =>
      match refreshExistingDiscogsMatch env row ptr with
      | (.ok r, tr) => (.result r, tr)
      | (.error e, tr) =>
        let reason : Str := match e with
          | .config => "discogs_config_error".toList
          | .temporary _ => "discogs_temporary_error_on_refresh".toList
          | .fatal => "refresh_failed".toList
        (.result { release_id := row.id, status := "rejected".toList,
                   confidence_score := 0,
                   discogs_release_id := jsOrNullInt row.discogs_release_id,
                   discogs_master_id := jsOrNullInt row.discogs_master_id,
                   debugReason := some reason }, tr)
    | none => searchPath env row

/-! ## The match trigger route (`POST /discogs/match/:releaseId`) -/

/-- The latest `release_discogs_matches` row for a release. -/
structure LatestMatchRow where
  status : Str
  confidence_score : Int
  discogs_release_id : Option Int := none
  discogs_master_id : Option Int := none
  created_at : Int
deriving Repr, DecidableEq

/-- The JSON body of a successful route response. -/
structure RouteBody where
  release_id : Nat
  status : Str
  confidence_score : Int
  discogs_release_id : Option Int
  discogs_master_id : Option Int
  skipped : Bool
  skip_reason : Option Str
deriving Repr, DecidableEq

/-- A route response: 404, 500, or a JSON body. -/
inductive RouteResp where
  | notFound
  | serverError
  | json (body : RouteBody)
deriving Repr, DecidableEq

/-- `ONE_HOUR_MS`. -/
def ONE_HOUR_MS : Int := 60 * 60 * 1000

/-- The `POST /discogs/match/:releaseId` handler: 404 when the release does
not exist; without `force`, when the latest attempt row is younger than one
hour, answer from that row with `skipped: true` and `skip_reason:
"cooldown_1h"` without enqueueing anything; otherwise enqueue the matcher
and map its result (a throw becomes a 500).  Returns the response, whether a
matcher job ran, and the trace of external calls and writes performed
(empty on the skip path). -/
def postDiscogsMatch (env : DiscogsEnv) (release : Option ReleaseRow)
    (latest : Option LatestMatchRow) (force : Bool) (nowMs : Int) :
    RouteResp × Bool × Trace :=
  match release with
  | none => (.notFound, false, {})
  | some rel =>
    let runNow : RouteResp × Bool × Trace :=
      let r := matchDiscogsForRelease env rel
      match r.1 with
      | .thrown => (.serverError, true, r.2)
      | .result m =>
        (.json { release_id := m.release_id, status := m.status,
                 confidence_score := m.confidence_score,
                 discogs_release_id := m.discogs_release_id,
                 discogs_master_id := m.discogs_master_id,
                 skipped := false, skip_reason := none }, true, r.2)
    match latest with
    | some l =>
      if force = false ∧ nowMs - l.created_at < ONE_HOUR_MS then
        (.json { release_id := rel.id, status := l.status,
                 confidence_score := l.confidence_score,
                 discogs_release_id := l.discogs_release_id,
                 discogs_master_id := l.discogs_master_id,
                 skipped := true, skip_reason := some "cooldown_1h".toList },
         false, {})
      else runNow
    | none => runNow

/-! ## Claim theorems about the matcher, persister and route -/

/-- Stored columns of a release already enriched with genres ["Techno"]. -/
def technoCols : ReleaseCols :=
  { discogs_release_id := some 111, discogs_master_id := some 222,
    discogs_confidence := some 80, discogs_matched_at := some 1000,
    discogs_genres := some ["Techno".toList] }

/-- A thin hydration payload whose genres field is null. -/
def nullGenresJson : DiscogsReleaseJson := { country := some "UK".toList }

/-- C2 counterexample: hydrating a release whose stored genres are
["Techno"] with a payload whose genres are null does NOT leave the stored
genres unchanged — the UPDATE assigns the payload columns directly (no
COALESCE), so the stored genres become NULL. -/
theorem persist_enrichment_null_genres_overwrites :
    nullGenresJson.genres = none ∧
    technoCols.discogs_genres = some ["Techno".toList] ∧
    (persistReleaseEnrichment ⟨1, some 111, some 222, some 80, nullGenresJson⟩
      technoCols 2000).1.discogs_genres ≠ some ["Techno".toList] ∧
    (persistReleaseEnrichment ⟨1, some 111, some 222, some 80, nullGenresJson⟩
      technoCols 2000).1.discogs_genres = none := by
  refine ⟨rfl, rfl, by decide, by decide⟩

/-- C2 amended: `persistReleaseEnrichment` applies COALESCE semantics (write
only when the new value is non-null, preserve otherwise) to the pointer
fields and confidence, and preserves `discogs_matched_at` once set; the
enrichment payload fields (genres, styles, country, labels, cover, thumb,
rating average, rating count) are instead overwritten with the freshly
extracted values, independently of what was stored before — in particular
they become NULL when the new value is null.  Hydrating stored genres
["Techno"] with a null-genres payload leaves the stored genres NULL. -/
theorem persist_enrichment_field_semantics :
    (∀ args old now,
      (persistReleaseEnrichment args old now).1.discogs_release_id =
        coalesce args.discogsReleaseId old.discogs_release_id ∧
      (persistReleaseEnrichment args old now).1.discogs_master_id =
        coalesce args.discogsMasterId old.discogs_master_id ∧
      (persistReleaseEnrichment args old now).1.discogs_confidence =
        coalesce args.confidenceScore old.discogs_confidence ∧
      (persistReleaseEnrichment args old now).1.discogs_matched_at =
        coalesce old.discogs_matched_at (some now)) ∧
    (∀ args old1 old2 now1 now2,
      (persistReleaseEnrichment args old1 now1).1.discogs_genres =
        (persistReleaseEnrichment args old2 now2).1.discogs_genres ∧
      (persistReleaseEnrichment args old1 now1).1.discogs_styles =
        (persistReleaseEnrichment args old2 now2).1.discogs_styles ∧
      (persistReleaseEnrichment args old1 now1).1.discogs_country =
        (persistReleaseEnrichment args old2 now2).1.discogs_country ∧
      (persistReleaseEnrichment args old1 now1).1.discogs_labels =
        (persistReleaseEnrichment args old2 now2).1.discogs_labels ∧
      (persistReleaseEnrichment args old1 now1).1.discogs_cover_image_url =
        (persistReleaseEnrichment args old2 now2).1.discogs_cover_image_url ∧
      (persistReleaseEnrichment args old1 now1).1.discogs_thumb_url =
        (persistReleaseEnrichment args old2 now2).1.discogs_thumb_url ∧
      (persistReleaseEnrichment args old1 now1).1.discogs_rating_average =
        (persistReleaseEnrichment args old2 now2).1.discogs_rating_average ∧
      (persistReleaseEnrichment args old1 now1).1.discogs_rating_count =
        (persistReleaseEnrichment args old2 now2).1.discogs_rating_count) ∧
    (∀ args old now, args.releaseJson.genres = none →
      (persistReleaseEnrichment args old now).1.discogs_genres = none) ∧
    (persistReleaseEnrichment ⟨1, some 111, some 222, some 80, nullGenresJson⟩
      technoCols 2000).1.discogs_genres = none := by
  refine ⟨fun args old now => ⟨rfl, rfl, rfl, rfl⟩,
    fun args old1 old2 now1 now2 => ⟨rfl, rfl, rfl, rfl, rfl, rfl, rfl, rfl⟩,
    fun args old now h => ?_, by decide⟩
  simp [persistReleaseEnrichment, safeStringArray, h]

/-- C2 amended witness: the null-overwrite clause at a concrete input. -/
theorem persist_enrichment_field_semantics_witness :
    (persistReleaseEnrichment ⟨2, none, none, none, nullGenresJson⟩ technoCols
      5).1.discogs_genres = none :=
  persist_enrichment_field_semantics.2.2.1 ⟨2, none, none, none, nullGenresJson⟩
    technoCols 5 rfl

/-- An environment in which Discogs is temporarily down: every call fails
with an upstream 502 (already past the client-level retry). -/
def tempEnv502 : DiscogsEnv :=
  { search := fun _ => .error (.temporary 502),
    getRelease := fun _ => .error (.temporary 502) }

/-- A plain unmatched release with valid artist and title. -/
def rowC1 : ReleaseRow :=
  { id := 1, title := some "Syro".toList, artist_name := some "Aphex Twin".toList }

/-- C1 (code bug): when every search call fails with a temporary error (here
upstream 502 on every attempt), the final matcher `continue`s past the
failed candidates, treats the resulting empty best response as a genuine
"no results", and — while returning a rejected result to the caller — ALSO
inserts a rejected `search_title_artist` Match Attempt row.  The persisted
attempt history changes, contradicting the claimed non-poisoning
invariant. -/
theorem matcher_temporary_errors_insert_rejected_row :
    (matchDiscogsForRelease tempEnv502 rowC1).1 =
      .result { release_id := 1, status := "rejected".toList, confidence_score := 0,
                debugReason := some "no_discogs_results".toList } ∧
    (matchDiscogsForRelease tempEnv502 rowC1).2.searches =
      [⟨"Aphex Twin".toList, "Syro".toList, none⟩] ∧
    (matchDiscogsForRelease tempEnv502 rowC1).2.matchRows =
      [⟨1, none, none, 0, "search_title_artist".toList, "rejected".toList⟩] := by
  refine ⟨by decide, by decide, by decide⟩

/-- C6: for every release row carrying an accepted Discogs pointer, when the
single `getRelease` call succeeds the matcher takes the fast path: no search
call, exactly one `getRelease`, one new Match Attempt row with method
`refresh_existing` and status `matched`, and the previously stored
confidence (or 100 when none) as confidence. -/
theorem matcher_fast_path_refresh (env : DiscogsEnv) (row : ReleaseRow) (ptr : Int)
    (json : DiscogsReleaseJson) (hid : row.id ≠ 0)
    (hptr : row.discogs_release_id = some ptr)
    (hok : env.getRelease ptr = .ok json) :
    matchDiscogsForRelease env row =
      (.result { release_id := row.id, status := "matched".toList,
                 confidence_score := row.discogs_confidence.getD 100,
                 discogs_release_id := some ptr, discogs_master_id := json.master_id,
                 refreshed := true },
       { getReleases := [ptr],
         entityUpserts := if ptr ≠ 0 then [(ptr, "release".toList)] else [],
         matchRows := [⟨row.id, some ptr, json.master_id,
           row.discogs_confidence.getD 100, "refresh_existing".toList,
           "matched".toList⟩],
         enrichPersists := [⟨row.id, some ptr, json.master_id,
           some (row.discogs_confidence.getD 100), json⟩] }) := by
  simp [matchDiscogsForRelease, hid, hptr, refreshExistingDiscogsMatch, hok]

/-- Fast-path witness environment: `getRelease` succeeds with master 9. -/
def envC6 : DiscogsEnv :=
  { search := fun _ => .ok ⟨[]⟩, getRelease := fun _ => .ok { master_id := some 9 } }

/-- A release already carrying pointer 42 with stored confidence 88. -/
def rowC6 : ReleaseRow :=
  { id := 7, discogs_release_id := some 42, discogs_confidence := some 88 }

/-- The document `envC6.getRelease` returns. -/
def jsonC6 : DiscogsReleaseJson := { master_id := some 9 }

/-- C6 witness: the fast path at a concrete matched release. -/
theorem matcher_fast_path_refresh_witness :
    matchDiscogsForRelease envC6 rowC6 =
      (.result { release_id := 7, status := "matched".toList, confidence_score := 88,
                 discogs_release_id := some 42, discogs_master_id := some 9,
                 refreshed := true },
       { getReleases := [42], entityUpserts := [(42, "release".toList)],
         matchRows := [⟨7, some 42, some 9, 88, "refresh_existing".toList,
           "matched".toList⟩],
         enrichPersists := [⟨7, some 42, some 9, some 88, jsonC6⟩] }) := by
  rw [matcher_fast_path_refresh envC6 rowC6 42 jsonC6 (by decide) rfl rfl]
  decide

/-- An environment in which every search succeeds with zero results. -/
def emptyEnv : DiscogsEnv :=
  { search := fun _ => .ok ⟨[]⟩, getRelease := fun _ => .error .fatal }

/-- An unmatched release with artist, title and year. -/
def rowC8 : ReleaseRow :=
  { id := 2, title := some "Untrue".toList, artist_name := some "Burial".toList,
    release_date_year := some 2007 }

/-- C8 counterexample: for a release with a year available, when every
search returns zero results the final matcher performs exactly ONE search
attempt — with the year included — and then persists the rejected row and
stops.  There is no second cross-product pass without the year, and no
12-attempt cross-product of artist and title candidates at all, refuting
the claim as stated. -/
theorem search_attempts_claim_false :
    (matchDiscogsForRelease emptyEnv rowC8).2.searches =
      [⟨"Burial".toList, "Untrue".toList, some 2007⟩] ∧
    (matchDiscogsForRelease emptyEnv rowC8).2.matchRows =
      [⟨2, none, none, 0, "search_title_artist".toList, "rejected".toList⟩] := by
  constructor <;> decide

theorem searchLoop_attempts (env : DiscogsEnv) (t : Str) (y : Option Int)
    (cands : List Str) : ∀ best : Option SearchResp, ∃ k,
      k ≤ cands.length ∧
      (searchLoop env t y cands best).1 =
        (cands.take k).map fun a => ⟨a, t, attemptYear y⟩ := by
  induction cands with
  | nil => intro best; exact ⟨0, by simp, by simp [searchLoop]⟩
  | cons a rest ih =>
    intro best
    rcases hs : env.search ⟨a, t, attemptYear y⟩ with e | resp
    · cases e with
      | config =>
        refine ⟨1, by simp, ?_⟩
        simp [searchLoop, hs]
      | temporary st =>
        obtain ⟨k, hk, hmap⟩ := ih best
        refine ⟨k + 1, by simp; omega, ?_⟩
        simp [searchLoop, hs, hmap]
      | fatal =>
        refine ⟨1, by simp, ?_⟩
        simp [searchLoop, hs]
    · by_cases hr : resp.results.isEmpty
      · obtain ⟨k, hk, hmap⟩ := ih (some resp)
        refine ⟨k + 1, by simp; omega, ?_⟩
        simp [searchLoop, hs, hr, hmap]
      · refine ⟨1, by simp, ?_⟩
        simp [searchLoop, hs, hr]

/-- C8 amended: on the search path the final matcher issues search attempts
over at most the first 3 artist candidates (the raw artist, the trimmed
prefix before the first slash, the trimmed prefix before the first comma),
each paired with the unmodified raw title and with the year included exactly
when it is truthy; the attempt log is a prefix of that candidate list (the
loop stops at the first attempt with results), never exceeds 3 attempts,
and no attempt without the year is ever made. -/
theorem search_attempts_amended (env : DiscogsEnv) (row : ReleaseRow)
    (hid : row.id ≠ 0) (hptr : row.discogs_release_id = none)
    (ha : (trimStr (row.artist_name.getD [])).isEmpty = false)
    (ht : (trimStr (row.title.getD [])).isEmpty = false) :
    ∃ k, k ≤ 3 ∧
      (matchDiscogsForRelease env row).2.searches =
        (((artistCandidates (trimStr (row.artist_name.getD []))).take 3).take k).map
          (fun a => ⟨a, trimStr (row.title.getD []), attemptYear row.release_date_year⟩) ∧
      (matchDiscogsForRelease env row).2.searches.length ≤ 3 := by
  have hsearch : (matchDiscogsForRelease env row).2.searches =
      (searchLoop env (trimStr (row.title.getD [])) row.release_date_year
        ((artistCandidates (trimStr (row.artist_name.getD []))).take 3) none).1 := by
    simp [matchDiscogsForRelease, hid, hptr, searchPath, ha, ht]
  obtain ⟨k, hk, hmap⟩ := searchLoop_attempts env (trimStr (row.title.getD []))
    row.release_date_year ((artistCandidates (trimStr (row.artist_name.getD []))).take 3)
    none
  have hk3 : k ≤ 3 := by
    have := hk.trans (List.length_take_le 3 _)
    omega
  refine ⟨k, hk3, by rw [hsearch, hmap], ?_⟩
  rw [hsearch, hmap]
  have : (((artistCandidates (trimStr (row.artist_name.getD []))).take 3).take k).length
      ≤ k := List.length_take_le k _
  simp only [List.length_map]
  omega

/-- C8 amended witness: the amended description at the concrete zero-result
run. -/
theorem search_attempts_amended_witness :
    ∃ k, k ≤ 3 ∧
      (matchDiscogsForRelease emptyEnv rowC8).2.searches =
        (((artistCandidates (trimStr (rowC8.artist_name.getD []))).take 3).take k).map
          (fun a => ⟨a, trimStr (rowC8.title.getD []),
            attemptYear rowC8.release_date_year⟩) ∧
      (matchDiscogsForRelease emptyEnv rowC8).2.searches.length ≤ 3 :=
  search_attempts_amended emptyEnv rowC8 (by decide) rfl (by decide) (by decide)

/-- C5: without `force`, when the latest persisted attempt is younger than
one hour, the route responds from that row with `skipped: true` and
`skip_reason: "cooldown_1h"`, runs no matcher job and produces an empty
effect trace (zero external calls); with `force` it runs the matcher
regardless of the age of the attempt and its effect trace is exactly the
matcher trace. -/
theorem post_discogs_match_cooldown :
    (∀ env rel (l : LatestMatchRow) nowMs, nowMs - l.created_at < ONE_HOUR_MS →
      postDiscogsMatch env (some rel) (some l) false nowMs =
        (.json { release_id := rel.id, status := l.status,
                 confidence_score := l.confidence_score,
                 discogs_release_id := l.discogs_release_id,
                 discogs_master_id := l.discogs_master_id,
                 skipped := true, skip_reason := some "cooldown_1h".toList },
         false, {})) ∧
    (∀ env rel latest nowMs,
      (postDiscogsMatch env (some rel) latest true nowMs).2.1 = true ∧
      (postDiscogsMatch env (some rel) latest true nowMs).2.2 =
        (matchDiscogsForRelease env rel).2) := by
  constructor
  · intro env rel l nowMs h
    simp [postDiscogsMatch, h]
  · intro env rel latest nowMs
    rcases latest with _ | l <;>
      rcases hm : (matchDiscogsForRelease env rel).1 with _ | m <;>
        simp [postDiscogsMatch, hm]

/-- The latest attempt row used by the cooldown witness. -/
def latestC5 : LatestMatchRow :=
  { status := "rejected".toList, confidence_score := 0, created_at := 1000 }

/-- C5 witness: a 1-second-old attempt row short-circuits the route. -/
theorem post_discogs_match_cooldown_witness :
    postDiscogsMatch tempEnv502 (some rowC1) (some latestC5) false 2000 =
      (.json { release_id := 1, status := "rejected".toList, confidence_score := 0,
               discogs_release_id := none, discogs_master_id := none,
               skipped := true, skip_reason := some "cooldown_1h".toList },
       false, {}) :=
  post_discogs_match_cooldown.1 tempEnv502 rowC1 latestC5 2000 (by decide)

end Bitrot
